import Mathlib

/-!
Verification of the TOD Markets API example client.

The development shallowly embeds the two JavaScript source files:
* the REST helper (`getTodMarketsEndpoint` / `postTodMarketsEndpoint`, with the
  `API_KEY` / `DOMAIN_URL` startup guards), and
* the websocket file (`setWebsocketDetails`, `getWebsocketDetails`, `channels`,
  `establishWebSocketConnection`).

JavaScript strings are modelled as Lean `String`s, and JS `null` / `undefined`
field values as `Option.none`.  Asynchronous effects are modelled by explicit
state passing together with a trace of `JsAction`s; a promise's settlement is the
`PromiseResult` component of a `JsOutcome`.
-/

/- ## Query-parameter handling of `getTodMarketsEndpoint` (API.js lines 48-75) -/

/-- A value appearing in an object passed as `parameters`.  A primitive
(string, number or boolean) is carried as its JS `String(v)` rendering, and an
array as the list of renderings of its elements, since the source immediately
stringifies every appended value and no claim depends on number formatting. -/
inductive JSParamValue
| undef
| nul
| prim (rendered : String)
| arr (rendered : List String)
deriving DecidableEq, Repr

/-- The `parameters` argument of `getTodMarketsEndpoint`: absent, a
`URLSearchParams` instance (carried as its entry list), a plain object, or a
query string. -/
inductive ParamsArg
| noParams
| searchParams (entries : List (String × String))
| obj (entries : List (String × JSParamValue))
| str (s : String)
deriving DecidableEq, Repr

/-- Remove a single leading question mark, as both the source's
`parameters.startsWith('?') ? parameters.slice(1) : parameters` and the
WHATWG `URLSearchParams` string constructor do. -/
def stripLeadQ : List Char → List Char
| [] => []
| c :: rest => if c = '?' then rest else c :: rest

/-- Split on the ampersand separator, as the urlencoded parser behind
`URLSearchParams` does. -/
def splitAmp : List Char → List (List Char)
| [] => [[]]
| c :: rest =>
  if c = '&' then [] :: splitAmp rest
  else match splitAmp rest with
    | [] => [[c]]
    | h :: t => (c :: h) :: t

/-- The urlencoded parser's plus-to-space substitution.  (Percent-decoding of
hex escapes is left out of the model: it is applied pointwise to parsed names
and values and no claim distinguishes decoded octets.) -/
def plusToSpace (cs : List Char) : List Char :=
  cs.map fun c => if c = '+' then ' ' else c

/-- Split one nonempty `name=value` piece at the first equals sign; a piece
without an equals sign yields an empty value. -/
def parsePiece (piece : List Char) : String × String :=
  let n := piece.takeWhile (· ≠ '=')
  let r := piece.dropWhile (· ≠ '=')
  let v := match r with
    | [] => []
    | _ :: t => t
  (⟨plusToSpace n⟩, ⟨plusToSpace v⟩)

/-- The urlencoded parse of a query string with its leading `?` already
removed: split on `&`, skip empty pieces, split each piece at its first `=`. -/
def rawParseQS (cs : List Char) : List (String × String) :=
  ((splitAmp cs).filter (fun l => !l.isEmpty)).map parsePiece

/-- `new URLSearchParams(q)` for a string argument: one leading question mark
is removed, then the remainder is parsed as urlencoded. -/
def uspEntries (q : List Char) : List (String × String) :=
  rawParseQS (stripLeadQ q)

/-- The entries appended for one `[k, v]` entry of an object `parameters`
value: `undefined` and `null` values are skipped, an array appends the key
once per element, any other value is appended once (API.js lines 57-61). -/
def objEntryContrib (k : String) : JSParamValue → List (String × String)
| .undef => []
| .nul => []
| .prim v => [(k, v)]
| .arr vs => vs.map fun v => (k, v)

/-- The query entries `getTodMarketsEndpoint` appends to the request URL
(API.js lines 53-69).  An empty string is falsy in JS, so `if (parameters)`
skips it; a nonempty string is stripped of one leading `?` by the source and
of one more by the `URLSearchParams` constructor. -/
def getTodMarketsQuery : ParamsArg → List (String × String)
| .noParams => []
| .searchParams entries => entries
| .obj entries => entries.flatMap fun kv => objEntryContrib kv.1 kv.2
| .str s => if s.data = [] then [] else uspEntries (stripLeadQ s.data)

/-- Whether a string begins with two question marks (the boundary at which the
double `?`-strip of `getTodMarketsQuery` becomes observable). -/
def beginsWithTwoQ (s : String) : Bool :=
  s.data.take 2 == ['?', '?']

/- ## Startup configuration guards (API.js lines 3-14) -/

/-- JS truthiness of an environment string: `undefined` (absent) and the empty
string are falsy. -/
def isFalsyEnv : Option String → Bool
| none => true
| some s => s == ""

/-- Result of loading the process: either `process.exit(code)` was reached, or
the modules loaded and execution continues. -/
inductive StartupResult
| exited (code : Nat)
| running
deriving DecidableEq, Repr

/- ## Websocket credential cache (API.js lines 139-170 of the websocket file) -/

/-- The mutable global `websocketDetails` object; every field starts as `null`
and a missing field of an assigned payload leaves `undefined`.  Both absences
are modelled as `none`. -/
structure WebsocketDetails where
  id : Option String
  name : Option String
  channel_key : Option String
  channel_key_expiry : Option String
  pusher_host : Option String
  pusher_key : Option String
  pusher_cluster : Option String
deriving DecidableEq, Repr

/-- The initial `websocketDetails` value: every field `null`. -/
def initialWebsocketDetails : WebsocketDetails :=
  ⟨none, none, none, none, none, none, none⟩

/-- The `data` member of the parsed `/api/company` response body; a field the
payload lacks is `none`. -/
structure DetailsPayload where
  id : Option String
  name : Option String
  channel_key : Option String
  channel_key_expiry : Option String
  pusher_host : Option String
  pusher_key : Option String
  pusher_cluster : Option String
deriving DecidableEq, Repr

/-- `setWebsocketDetails`: copies each of the seven fields of `details` into
the global object unconditionally. -/
def setWebsocketDetails (st : WebsocketDetails) (details : DetailsPayload) : WebsocketDetails :=
  { id := details.id
    name := details.name
    channel_key := details.channel_key
    channel_key_expiry := details.channel_key_expiry
    pusher_host := details.pusher_host
    pusher_key := details.pusher_key
    pusher_cluster := details.pusher_cluster }

/-- How the GET to `/api/company` settles, as seen by `getWebsocketDetails`:
the fetch rejects (network error or non-2xx), the body is not valid JSON, or
the body parses with an optional `data` member. -/
inductive FetchOutcome
| fetchError
| invalidJSON
| parsed (data : Option DetailsPayload)
deriving DecidableEq, Repr

/-- The JS errors that can travel down the promise chain of
`getWebsocketDetails`. -/
inductive JsError
| fetchFailed
| jsonParseError
| typeErrorUndefinedRead
deriving DecidableEq, Repr

/-- Settlement of a modelled promise: the source's async functions resolve
with `undefined` when they do not reject. -/
inductive PromiseResult
| resolvedUndefined
| rejected (e : JsError)
deriving DecidableEq, Repr

/-- Pusher client construction options (websocket file lines 188-201). -/
structure PusherConfig where
  key : Option String
  cluster : Option String
  wsHost : Option String
  activityTimeout : Nat
  pongTimeout : Nat
  wsPort : Nat
  forceTLS : Bool
  authEndpoint : String
  authHeader : String
deriving DecidableEq, Repr

/-- Observable actions of one execution, in program order. -/
inductive JsAction
| logMissingApiKey
| logMissingDomainUrl
| logFetching (endpoint : String)
| httpGet (endpoint : String)
| logWebsocketDetails (data : Option DetailsPayload)
| logFetchDetailsError
| constructPusher (cfg : PusherConfig)
| subscribeChannel (channel : Option String)
| bindEvent (eventName : String)
deriving DecidableEq, Repr

/-- The outcome of running one of the async operations: the resulting cache
state, the emitted actions, and how the returned promise settles. -/
structure JsOutcome where
  state : WebsocketDetails
  log : List JsAction
  result : PromiseResult
deriving Repr

/-- The pipeline `getTodMarketsEndpoint('/api/company').then(...)` of
`getWebsocketDetails`, before the trailing `.catch`.  The endpoint helper logs
the URL and issues the GET; on a parsed body the `then` callback logs
`res.data` in full and then runs `setWebsocketDetails(res.data)`, which throws
a `TypeError` (reading `details.id`) before assigning anything when `data` is
absent. -/
def getWebsocketDetailsAttempt (o : FetchOutcome) (st : WebsocketDetails) : JsOutcome :=
  match o with
  | .fetchError =>
    ⟨st, [.logFetching "/api/company", .httpGet "/api/company"], .rejected .fetchFailed⟩
  | .invalidJSON =>
    ⟨st, [.logFetching "/api/company", .httpGet "/api/company"], .rejected .jsonParseError⟩
  | .parsed none =>
    ⟨st, [.logFetching "/api/company", .httpGet "/api/company", .logWebsocketDetails none],
      .rejected .typeErrorUndefinedRead⟩
  | .parsed (some d) =>
    ⟨setWebsocketDetails st d,
      [.logFetching "/api/company", .httpGet "/api/company", .logWebsocketDetails (some d)],
      .resolvedUndefined⟩

/-- `getWebsocketDetails`: the attempt above with its `.catch`, which logs the
error and swallows it, so the async function always resolves with
`undefined`. -/
def getWebsocketDetails (o : FetchOutcome) (st : WebsocketDetails) : JsOutcome :=
  let a := getWebsocketDetailsAttempt o st
  match a.result with
  | .resolvedUndefined => a
  | .rejected _ => ⟨a.state, a.log ++ [.logFetchDetailsError], .resolvedUndefined⟩

/- ## Environment URL and the Pusher client (websocket file lines 134-210) -/

/-- `process.env.DOMAIN_URL.replace(/\/api\/?$/, '')`: one anchored match of a
trailing `/api` with an optional final slash (matched greedily) is removed. -/
def stripApiSuffix (s : String) : String :=
  if s.data.reverse.take 5 = ['/', 'i', 'p', 'a', '/'] then ⟨(s.data.reverse.drop 5).reverse⟩
  else if s.data.reverse.take 4 = ['i', 'p', 'a', '/'] then ⟨(s.data.reverse.drop 4).reverse⟩
  else s

/-- `environmentURL.value`. -/
def environmentURLValue (domainUrl : String) : String :=
  stripApiSuffix domainUrl

/-- The options object passed to `new Pusher(...)`, built from the current
cache state and the environment. -/
def pusherConfigOf (apiKey domainUrl : String) (st : WebsocketDetails) : PusherConfig :=
  { key := st.pusher_key
    cluster := st.pusher_cluster
    wsHost := st.pusher_host
    activityTimeout := 30000
    pongTimeout := 10000
    wsPort := 80
    forceTLS := false
    authEndpoint := environmentURLValue domainUrl ++ "/broadcasting/auth"
    authHeader := "Bearer " ++ apiKey }

/-- `establishWebSocketConnection`: awaits `getWebsocketDetails()` (which
never rejects), then unconditionally constructs the Pusher client from
whatever the cache now holds, subscribes `websocketDetails.channel_key`, and
binds the single event `'update'`. -/
def establishWebSocketConnection (apiKey domainUrl : String) (o : FetchOutcome)
    (st : WebsocketDetails) : JsOutcome :=
  let r := getWebsocketDetails o st
  let cfg := pusherConfigOf apiKey domainUrl r.state
  ⟨r.state,
    r.log ++ [.constructPusher cfg, .subscribeChannel r.state.channel_key, .bindEvent "update"],
    .resolvedUndefined⟩

/-- The Pusher configurations a trace constructs clients from. -/
def constructedPusherConfigs (acts : List JsAction) : List PusherConfig :=
  acts.filterMap fun a =>
    match a with
    | .constructPusher cfg => some cfg
    | _ => none

/-- The event names a trace binds handlers to. -/
def boundEventNames (acts : List JsAction) : List String :=
  acts.filterMap fun a =>
    match a with
    | .bindEvent n => some n
    | _ => none

/-- The channels a trace subscribes. -/
def subscribedChannels (acts : List JsAction) : List (Option String) :=
  acts.filterMap fun a =>
    match a with
    | .subscribeChannel c => some c
    | _ => none

/-- Whether every one of the seven credential fields is present. -/
def credentialFieldsComplete (st : WebsocketDetails) : Bool :=
  st.id.isSome && st.name.isSome && st.channel_key.isSome && st.channel_key_expiry.isSome &&
    st.pusher_host.isSome && st.pusher_key.isSome && st.pusher_cluster.isSome

/-- Whether an optional field is present and non-empty. -/
def fieldFilled : Option String → Bool
| none => false
| some s => !(s == "")

/-- Whether every required payload field is present and non-empty. -/
def payloadComplete (d : DetailsPayload) : Bool :=
  fieldFilled d.id && fieldFilled d.name && fieldFilled d.channel_key &&
    fieldFilled d.channel_key_expiry && fieldFilled d.pusher_host &&
    fieldFilled d.pusher_key && fieldFilled d.pusher_cluster

/-- Whether a trace logs a credential payload whose pusher key is `k` (the
`console.log('Websocket Details:', res.data)` line prints the payload whole). -/
def logIncludesPusherKey (acts : List JsAction) (k : String) : Bool :=
  acts.any fun a =>
    match a with
    | .logWebsocketDetails (some d) => d.pusher_key == some k
    | _ => false

/-- Whether a trace contains any REST call or transport connection action. -/
def anyNetworkAction (acts : List JsAction) : Bool :=
  acts.any fun a =>
    match a with
    | .httpGet _ => true
    | .constructPusher _ => true
    | .subscribeChannel _ => true
    | _ => false

/-- Loading `API.js` (lines 3-14): a falsy `API_KEY` or `DOMAIN_URL` logs the
configuration error and reaches `process.exit(1)` before anything else runs. -/
def loadAPIModule (apiKey domainUrl : Option String) : StartupResult × List JsAction :=
  if isFalsyEnv apiKey then (.exited 1, [.logMissingApiKey])
  else if isFalsyEnv domainUrl then (.exited 1, [.logMissingDomainUrl])
  else (.running, [])

/-- Running the websocket entry point: it first requires `API.js` (whose
startup guards may exit the process) and then, as the main module, runs
`establishWebSocketConnection`. -/
def runWebsocketProgram (apiKey domainUrl : Option String) (o : FetchOutcome) :
    StartupResult × List JsAction :=
  match loadAPIModule apiKey domainUrl with
  | (.exited c, l) => (.exited c, l)
  | (.running, l) =>
    let r := establishWebSocketConnection (apiKey.getD "") (domainUrl.getD "") o
      initialWebsocketDetails
    (.running, l ++ r.log)

/- ## Event routing (websocket file lines 172-183 and 203-206) -/

/-- The event-name keys of the `channels` object's `private-company` entry. -/
def channelsPrivateCompanyEvents : List String :=
  ["App\\Events\\AssetPriceChangeEventCompany",
   "App\\Events\\OrderUpdated",
   "App\\Events\\OrderFilled",
   "App\\Events\\OrderCreated"]

/-- The argument each `channels` handler receives; the inline handlers all
forward `e.data`. -/
structure InboundEventArg (α : Type) where
  data : α

/-- The payload a `channels` handler forwards to `queueRowUpdate`: the `data`
member of the event argument, not the argument itself. -/
def channelsHandlerPayload {α : Type} (e : InboundEventArg α) : α :=
  e.data

/-- Modelled from the spec: the transport boundary of section 6 — the pub/sub
provider (pusher-js, external to the repository) invokes each callback bound
to an inbound event's name once, passing the event payload; callbacks bound to
other names are not invoked.  The result is the list of payloads delivered to
handlers of `eventName`, one per matching binding. -/
def pusherDispatchPayloads {α : Type} (bound : List String) (eventName : String)
    (payload : α) : List α :=
  (bound.filter fun b => b == eventName).map fun _ => payload

/- ## Channel authorization (websocket file lines 195-200) -/

/-- Modelled from the spec: the transport boundary and section 6 — on a
private-channel subscription the transport (external to the repository) POSTs
the transport-assigned socket id and the channel name to the configured
`authEndpoint`, attaching the configured auth headers. -/
structure AuthRequest where
  url : String
  authHeader : String
  socketId : String
  channelName : String
deriving DecidableEq, Repr

/-- The authorization request the transport issues for the given client
configuration, socket id and channel name. -/
def authExchangeRequest (cfg : PusherConfig) (socketId channelName : String) : AuthRequest :=
  ⟨cfg.authEndpoint, cfg.authHeader, socketId, channelName⟩

/- ## Credential expiry (spec section 4.1) -/

/-- Modelled from the spec: no `isExpired` exists anywhere in the source — the
cached `channel_key_expiry` is stored but never consulted.  Section 4.1:
`isExpired(now)` compares `now` against `channelKeyExpiry` and treats a
missing or unparsable expiry as already expired (fail-safe). -/
def isExpired (st : WebsocketDetails) (now : Nat) : Bool :=
  match st.channel_key_expiry.bind String.toNat? with
  | none => true
  | some e => decide (e ≤ now)

/- ## Concrete fixtures -/

/-- The credential payload of the spec's section 8 scenario. -/
def scenarioPayload : DetailsPayload :=
  ⟨some "c1", some "Acme", some "k1", some "9999999999", some "h", some "pk", some "eu"⟩

/-- A fully populated previously cached credential set. -/
def previouslyCachedDetails : WebsocketDetails :=
  ⟨some "old-id", some "Old Co", some "old-key", some "111", some "old-host",
    some "old-pk", some "old-cluster"⟩

/-- The scenario payload with its `pusher_key` field missing. -/
def payloadMissingPusherKey : DetailsPayload :=
  ⟨some "c1", some "Acme", some "k1", some "9999999999", some "h", none, some "eu"⟩

/- ## Claims -/

/-- C10: `getWebsocketDetails` never rejects — for every outcome of the
underlying GET to `/api/company`, including a thrown fetch error and a non-2xx
response, the returned promise resolves with `undefined`; the error is only
logged, so an awaiting caller cannot observe from the settlement whether the
credential fetch succeeded. -/
theorem C10_getWebsocketDetails_always_resolves (o : FetchOutcome) (st : WebsocketDetails) :
    (getWebsocketDetails o st).result = .resolvedUndefined := by
  cases o with
  | fetchError => rfl
  | invalidJSON => rfl
  | parsed d => cases d <;> rfl

/-- C1 counterexample: with a failed credential fetch, every credential field
of the cache is still absent, yet `establishWebSocketConnection` constructs a
Pusher client anyway (with an absent key), refuting the claim that no
transport client is constructed while a required field is missing. -/
theorem C1_counterexample_connects_after_failed_fetch :
    credentialFieldsComplete
        (establishWebSocketConnection "key" "https://h/api" .fetchError
          initialWebsocketDetails).state = false ∧
    constructedPusherConfigs
        (establishWebSocketConnection "key" "https://h/api" .fetchError
          initialWebsocketDetails).log ≠ [] := by
  decide

/-- C1 (amended): `establishWebSocketConnection` constructs the Pusher client
unconditionally — exactly once per call, from whatever the cache holds after
the fetch, including after a failed refresh with every field absent; no
credential validation guards the construction. -/
theorem C1_pusher_constructed_unconditionally (apiKey domainUrl : String) (o : FetchOutcome)
    (st : WebsocketDetails) :
    constructedPusherConfigs (establishWebSocketConnection apiKey domainUrl o st).log
      = [pusherConfigOf apiKey domainUrl (getWebsocketDetails o st).state] := by
  cases o with
  | fetchError => rfl
  | invalidJSON => rfl
  | parsed d => cases d <;> rfl

/-- C2 counterexample: refreshing over a fully cached credential set with a
payload missing `pusher_key` does not fail — the promise resolves — and the
cache is overwritten (the previously cached pusher key is replaced by an
absent value), refuting both the claimed failure and the claimed atomicity. -/
theorem C2_counterexample_partial_payload_overwrites_cache :
    (getWebsocketDetails (.parsed (some payloadMissingPusherKey))
        previouslyCachedDetails).result = .resolvedUndefined ∧
    previouslyCachedDetails.pusher_key = some "old-pk" ∧
    (getWebsocketDetails (.parsed (some payloadMissingPusherKey))
        previouslyCachedDetails).state.pusher_key = none ∧
    (getWebsocketDetails (.parsed (some payloadMissingPusherKey))
        previouslyCachedDetails).state ≠ previouslyCachedDetails := by
  decide

/-- C2 (amended): a refresh whose payload carries a `data` object never fails,
whatever fields are missing: it overwrites all seven cached fields with the
payload's (possibly absent) values.  The previous cache survives only when the
fetch rejects, the body is unparsable, or the parsed body has no `data`
member. -/
theorem C2_refresh_overwrites_cache_wholesale (d : DetailsPayload) (st : WebsocketDetails) :
    ((getWebsocketDetails (.parsed (some d)) st).state = setWebsocketDetails st d ∧
      (getWebsocketDetails (.parsed (some d)) st).result = .resolvedUndefined) ∧
    (∀ st2 : WebsocketDetails,
      (getWebsocketDetails .fetchError st2).state = st2 ∧
      (getWebsocketDetails .invalidJSON st2).state = st2 ∧
      (getWebsocketDetails (.parsed none) st2).state = st2) :=
  ⟨⟨rfl, rfl⟩, fun _ => ⟨rfl, rfl, rfl⟩⟩

/-- C3: for every credential payload with all seven required fields present
and non-empty, the refresh resolves successfully and a subsequent read of the
cache returns exactly the fetched values, field by field. -/
theorem C3_valid_refresh_stores_exact_values (d : DetailsPayload) (st : WebsocketDetails)
    (h : payloadComplete d = true) :
    (getWebsocketDetails (.parsed (some d)) st).result = .resolvedUndefined ∧
    (getWebsocketDetails (.parsed (some d)) st).state.id = d.id ∧
    (getWebsocketDetails (.parsed (some d)) st).state.name = d.name ∧
    (getWebsocketDetails (.parsed (some d)) st).state.channel_key = d.channel_key ∧
    (getWebsocketDetails (.parsed (some d)) st).state.channel_key_expiry
      = d.channel_key_expiry ∧
    (getWebsocketDetails (.parsed (some d)) st).state.pusher_host = d.pusher_host ∧
    (getWebsocketDetails (.parsed (some d)) st).state.pusher_key = d.pusher_key ∧
    (getWebsocketDetails (.parsed (some d)) st).state.pusher_cluster = d.pusher_cluster :=
  ⟨rfl, rfl, rfl, rfl, rfl, rfl, rfl, rfl⟩

/-- C3 witness: the section-8 scenario payload is complete, and refreshing
with it stores exactly its values. -/
theorem C3_valid_refresh_stores_exact_values_witness :
    payloadComplete scenarioPayload = true ∧
    ((getWebsocketDetails (.parsed (some scenarioPayload)) initialWebsocketDetails).result
        = .resolvedUndefined ∧
      (getWebsocketDetails (.parsed (some scenarioPayload)) initialWebsocketDetails).state.id
        = scenarioPayload.id ∧
      (getWebsocketDetails (.parsed (some scenarioPayload)) initialWebsocketDetails).state.name
        = scenarioPayload.name ∧
      (getWebsocketDetails (.parsed (some scenarioPayload))
          initialWebsocketDetails).state.channel_key = scenarioPayload.channel_key ∧
      (getWebsocketDetails (.parsed (some scenarioPayload))
          initialWebsocketDetails).state.channel_key_expiry
        = scenarioPayload.channel_key_expiry ∧
      (getWebsocketDetails (.parsed (some scenarioPayload))
          initialWebsocketDetails).state.pusher_host = scenarioPayload.pusher_host ∧
      (getWebsocketDetails (.parsed (some scenarioPayload))
          initialWebsocketDetails).state.pusher_key = scenarioPayload.pusher_key ∧
      (getWebsocketDetails (.parsed (some scenarioPayload))
          initialWebsocketDetails).state.pusher_cluster = scenarioPayload.pusher_cluster) :=
  ⟨by decide,
    C3_valid_refresh_stores_exact_values scenarioPayload initialWebsocketDetails (by decide)⟩

/-- C5 counterexample: a refresh that receives the scenario payload logs the
payload whole, so the transport key value `"pk"` appears in the log output,
refuting the claim that key material is never logged. -/
theorem C5_counterexample_refresh_logs_transport_key :
    scenarioPayload.pusher_key = some "pk" ∧
    logIncludesPusherKey
        (getWebsocketDetails (.parsed (some scenarioPayload)) initialWebsocketDetails).log
        "pk" = true := by
  decide

/-- C5 (amended): every refresh that receives a credential payload logs the
entire payload — `console.log('Websocket Details:', res.data)` — so the
transport key value always appears in the log output of a successful fetch. -/
theorem C5_every_successful_refresh_logs_key (d : DetailsPayload) (st : WebsocketDetails)
    (k : String) (h : d.pusher_key = some k) :
    logIncludesPusherKey (getWebsocketDetails (.parsed (some d)) st).log k = true := by
  simp [getWebsocketDetails, getWebsocketDetailsAttempt, logIncludesPusherKey, h]

/-- C5 witness: instantiating the amended theorem at the scenario payload. -/
theorem C5_every_successful_refresh_logs_key_witness :
    logIncludesPusherKey
        (getWebsocketDetails (.parsed (some scenarioPayload)) initialWebsocketDetails).log
        "pk" = true :=
  C5_every_successful_refresh_logs_key scenarioPayload initialWebsocketDetails "pk" rfl

/-- C7: with `API_KEY` or `DOMAIN_URL` absent (or empty, equally falsy), the
process exits with code 1 during module load, before any REST call, Pusher
construction or subscription is issued. -/
theorem C7_missing_config_exits_before_any_network_action (apiKey domainUrl : Option String)
    (o : FetchOutcome) (h : isFalsyEnv apiKey = true ∨ isFalsyEnv domainUrl = true) :
    (runWebsocketProgram apiKey domainUrl o).1 = .exited 1 ∧
    anyNetworkAction (runWebsocketProgram apiKey domainUrl o).2 = false := by
  rcases h with h | h
  · simp [runWebsocketProgram, loadAPIModule, h, anyNetworkAction]
  · cases hk : isFalsyEnv apiKey with
    | true => simp [runWebsocketProgram, loadAPIModule, hk, anyNetworkAction]
    | false => simp [runWebsocketProgram, loadAPIModule, hk, h, anyNetworkAction]

/-- C7 witness: with `API_KEY` unset the program exits with code 1 and issues
no network action. -/
theorem C7_missing_config_exits_witness :
    (runWebsocketProgram none (some "https://h/api") .fetchError).1 = .exited 1 ∧
    anyNetworkAction (runWebsocketProgram none (some "https://h/api") .fetchError).2 = false :=
  C7_missing_config_exits_before_any_network_action none (some "https://h/api") .fetchError
    (Or.inl rfl)

/-- C4 counterexample: with the section-8 scenario credentials the connection
subscribes channel `k1`, yet an inbound `OrderFilled` event with payload
`{id: 42}` is delivered to no handler at all — only `'update'` is ever bound —
refuting the claimed exactly-once delivery and the claimed routing of the four
domain events. -/
theorem C4_counterexample_orderfilled_reaches_no_handler :
    subscribedChannels (establishWebSocketConnection "key" "https://h/api"
        (.parsed (some scenarioPayload)) initialWebsocketDetails).log = [some "k1"] ∧
    pusherDispatchPayloads
        (boundEventNames (establishWebSocketConnection "key" "https://h/api"
          (.parsed (some scenarioPayload)) initialWebsocketDetails).log)
        "OrderFilled" [("id", (42 : Int))] = [] ∧
    pusherDispatchPayloads
        (boundEventNames (establishWebSocketConnection "key" "https://h/api"
          (.parsed (some scenarioPayload)) initialWebsocketDetails).log)
        "App\\Events\\OrderFilled" [("id", (42 : Int))] = [] := by
  decide

/-- C4 (amended): `establishWebSocketConnection` binds exactly the one event
`'update'` on the subscribed channel; an inbound `'update'` event's payload is
delivered to its handler exactly once and unmodified, while every other event
name — `OrderFilled` and the four `App\Events` names of the unused `channels`
mapping included — reaches no handler. -/
theorem C4_only_update_event_bound {α : Type} (apiKey domainUrl : String) (o : FetchOutcome)
    (st : WebsocketDetails) (p : α) :
    boundEventNames (establishWebSocketConnection apiKey domainUrl o st).log = ["update"] ∧
    pusherDispatchPayloads
        (boundEventNames (establishWebSocketConnection apiKey domainUrl o st).log)
        "update" p = [p] ∧
    (∀ e : String, e ≠ "update" →
      pusherDispatchPayloads
        (boundEventNames (establishWebSocketConnection apiKey domainUrl o st).log) e p = []) := by
  have hb : boundEventNames (establishWebSocketConnection apiKey domainUrl o st).log
      = ["update"] := by
    cases o with
    | fetchError => rfl
    | invalidJSON => rfl
    | parsed d => cases d <;> rfl
  refine ⟨hb, ?_, ?_⟩
  · rw [hb]
    simp [pusherDispatchPayloads]
  · intro e he
    rw [hb]
    have hne : ("update" == e) = false :=
      beq_eq_false_iff_ne.mpr fun hh => he hh.symm
    simp [pusherDispatchPayloads, List.filter_cons, hne]

/-- C4 witness: instantiating the amended theorem at the scenario — `'update'`
is the only binding, its payload `{id: 42}` arrives exactly once, and the
fully qualified `OrderFilled` event name reaches no handler. -/
theorem C4_only_update_event_bound_witness :
    boundEventNames (establishWebSocketConnection "key" "https://h/api"
        (.parsed (some scenarioPayload)) initialWebsocketDetails).log = ["update"] ∧
    pusherDispatchPayloads
        (boundEventNames (establishWebSocketConnection "key" "https://h/api"
          (.parsed (some scenarioPayload)) initialWebsocketDetails).log)
        "update" [("id", (42 : Int))] = [[("id", (42 : Int))]] ∧
    pusherDispatchPayloads
        (boundEventNames (establishWebSocketConnection "key" "https://h/api"
          (.parsed (some scenarioPayload)) initialWebsocketDetails).log)
        "App\\Events\\OrderCreated" [("id", (42 : Int))] = [] :=
  ⟨(C4_only_update_event_bound "key" "https://h/api" (.parsed (some scenarioPayload))
      initialWebsocketDetails [("id", (42 : Int))]).1,
    (C4_only_update_event_bound "key" "https://h/api" (.parsed (some scenarioPayload))
      initialWebsocketDetails [("id", (42 : Int))]).2.1,
    (C4_only_update_event_bound "key" "https://h/api" (.parsed (some scenarioPayload))
      initialWebsocketDetails [("id", (42 : Int))]).2.2 "App\\Events\\OrderCreated"
      (by decide)⟩

/-- C6: `isExpired` is false exactly when the stored expiry parses to a
timestamp strictly after `now` — so it is true for every `now` at or past the
expiry, and true whenever the expiry is absent or unparsable (fail-safe). -/
theorem C6_isExpired_characterization (st : WebsocketDetails) (now : Nat) :
    isExpired st now = false ↔
      ∃ e : Nat, st.channel_key_expiry.bind String.toNat? = some e ∧ now < e := by
  rcases h : st.channel_key_expiry.bind String.toNat? with _ | e <;> simp [isExpired, h]

/-- C8: every private-channel authorization exchange goes to the backend base
URL with one trailing `/api` segment (with or without a final slash) removed,
plus `/broadcasting/auth`, carries `Bearer` plus the API key in the
`Authorization` header, and carries the transport-supplied socket id. -/
theorem C8_auth_exchange_request_shape (apiKey domainUrl socketId channelName : String)
    (st : WebsocketDetails) :
    authExchangeRequest (pusherConfigOf apiKey domainUrl st) socketId channelName
      = ⟨stripApiSuffix domainUrl ++ "/broadcasting/auth", "Bearer " ++ apiKey,
          socketId, channelName⟩ ∧
    (∀ base : String,
      stripApiSuffix (base ++ "/api") = base ∧ stripApiSuffix (base ++ "/api/") = base) := by
  refine ⟨rfl, fun base => ⟨?_, ?_⟩⟩
  · obtain ⟨l⟩ := base
    have h1 : ((⟨l⟩ : String) ++ "/api").data.reverse = 'i' :: 'p' :: 'a' :: '/' :: l.reverse := by
      rw [show ((⟨l⟩ : String) ++ "/api").data = l ++ ['/', 'a', 'p', 'i'] from rfl,
        List.reverse_append]
      rfl
    simp [stripApiSuffix, h1, List.take_succ_cons]
  · obtain ⟨l⟩ := base
    have h1 : ((⟨l⟩ : String) ++ "/api/").data.reverse
        = '/' :: 'i' :: 'p' :: 'a' :: '/' :: l.reverse := by
      rw [show ((⟨l⟩ : String) ++ "/api/").data = l ++ ['/', 'a', 'p', 'i', '/'] from rfl,
        List.reverse_append]
      rfl
    simp [stripApiSuffix, h1, List.take_succ_cons]

/-- C9 counterexample: for the string `"??a=1"`, prepending a leading `?`
changes the built query — the two strips (one by the source, one by the
`URLSearchParams` constructor) make `"???a=1"` parse as key `?a` while
`"??a=1"` parses as key `a` — refuting the claimed leading-`?` invariance. -/
theorem C9_counterexample_double_question_mark :
    getTodMarketsQuery (.str ("?" ++ "??a=1")) ≠ getTodMarketsQuery (.str "??a=1") := by
  decide

/-- C9 (amended): prepending a leading `?` to a string `parameters` value
leaves the built query unchanged provided the string does not itself begin
with two question marks; and for an object `parameters` value, every entry
whose value is `undefined` or `null` is omitted while an array value repeats
the key once per element. -/
theorem C9_query_building_properties :
    (∀ s : String, beginsWithTwoQ s = false →
      getTodMarketsQuery (.str ("?" ++ s)) = getTodMarketsQuery (.str s)) ∧
    (∀ (pre post : List (String × JSParamValue)) (k : String) (v : JSParamValue),
      v = .undef ∨ v = .nul →
      getTodMarketsQuery (.obj (pre ++ (k, v) :: post))
        = getTodMarketsQuery (.obj (pre ++ post))) ∧
    (∀ (pre post : List (String × JSParamValue)) (k : String) (vs : List String),
      getTodMarketsQuery (.obj (pre ++ (k, .arr vs) :: post))
        = getTodMarketsQuery (.obj pre) ++ vs.map (fun v => (k, v))
          ++ getTodMarketsQuery (.obj post)) := by
  refine ⟨?_, ?_, ?_⟩
  · intro s h
    obtain ⟨l⟩ := s
    have hd : (("?" : String) ++ ⟨l⟩).data = '?' :: l := rfl
    have hl : getTodMarketsQuery (.str ("?" ++ ⟨l⟩)) = uspEntries (stripLeadQ ('?' :: l)) := by
      simp [getTodMarketsQuery, hd]
    rw [hl]
    rcases l with _ | ⟨c, t⟩
    · simp [getTodMarketsQuery, stripLeadQ, uspEntries, rawParseQS, splitAmp]
    · by_cases hc : c = '?'
      · subst hc
        have ht : stripLeadQ t = t := by
          rcases t with _ | ⟨c2, t2⟩
          · rfl
          · have hc2 : c2 ≠ '?' := by
              intro he
              subst he
              simp [beginsWithTwoQ, List.take_succ_cons] at h
            simp [stripLeadQ, hc2]
        have h2 : stripLeadQ ('?' :: '?' :: t) = '?' :: t := rfl
        have h3 : stripLeadQ ('?' :: t) = t := rfl
        have h4 : getTodMarketsQuery (.str ⟨'?' :: t⟩) = uspEntries (stripLeadQ ('?' :: t)) := by
          simp [getTodMarketsQuery]
        rw [h2, h4, h3]
        simp only [uspEntries]
        rw [h3, ht]
      · have h2 : stripLeadQ ('?' :: c :: t) = c :: t := rfl
        have h3 : stripLeadQ (c :: t) = c :: t := by simp [stripLeadQ, hc]
        have h4 : getTodMarketsQuery (.str ⟨c :: t⟩) = uspEntries (stripLeadQ (c :: t)) := by
          simp [getTodMarketsQuery]
        rw [h2, h4, h3]
  · intro pre post k v h
    rcases h with h | h <;> subst h <;> simp [getTodMarketsQuery, objEntryContrib]
  · intro pre post k vs
    simp [getTodMarketsQuery, objEntryContrib]

/-- C9 witness: instantiating the amended theorem — a leading `?` on
`"limit=10"` is immaterial, an `undefined`-valued entry is dropped, and an
array value repeats its key. -/
theorem C9_query_building_properties_witness :
    getTodMarketsQuery (.str ("?" ++ "limit=10")) = getTodMarketsQuery (.str "limit=10") ∧
    getTodMarketsQuery (.obj ([] ++ ("x", .undef) :: [("y", .prim "2")]))
      = getTodMarketsQuery (.obj ([] ++ [("y", .prim "2")])) ∧
    getTodMarketsQuery (.obj ([] ++ ("m", .arr ["N", "Q"]) :: []))
      = getTodMarketsQuery (.obj []) ++ ["N", "Q"].map (fun v => ("m", v))
        ++ getTodMarketsQuery (.obj []) :=
  ⟨C9_query_building_properties.1 "limit=10" (by decide),
    C9_query_building_properties.2.1 [] [("y", .prim "2")] "x" .undef (Or.inl rfl),
    C9_query_building_properties.2.2 [] [] "m" ["N", "Q"]⟩
